import Mathlib

/-!
Shallow embedding of the ZooKeeper client connection core (conn.go) and
verification of its specification claims.  The definitions below are
translated directly from the Go source: machine int32/int64 values are
modelled as `Int` with explicit wrapping where overflow matters, Go maps
are modelled as association lists, channels/sinks as abstract `Nat` ids,
and code that can panic returns `Except`.
-/

namespace Zk

/-- Abstract identifier standing for a one-shot channel (completion sink or
watch event sink). -/
abbrev Sink := Nat

/-- Error values the connection core distinguishes.  `errConnectionClosed`,
`errSessionExpired`, `errNoNode` are the named errors from the error table;
`protoError c` stands for `ErrCode(c).toError()` for a nonzero response
header error field; `ioError` stands for a transport (socket read/write)
error; `encodeError` stands for an `encodePacket` failure. -/
inductive ZkError where
  | errConnectionClosed
  | errSessionExpired
  | errNoNode
  | protoError (code : Int)
  | ioError (code : Nat)
  | encodeError (code : Nat)
  deriving DecidableEq

/-- Connection states (StateDisconnected .. StateExpired). -/
inductive State where
  | disconnected
  | connecting
  | connected
  | hasSession
  | authFailed
  | expired
  deriving DecidableEq

/-- Event types (EventNodeCreated .. EventNotWatching, EventSession). -/
inductive EventType where
  | nodeCreated
  | nodeDeleted
  | nodeDataChanged
  | nodeChildrenChanged
  | session
  | notWatching
  deriving DecidableEq

/-- The Event structure delivered on event channels and watch sinks. -/
structure Event where
  type : EventType
  state : State
  path : String
  err : Option ZkError
  deriving DecidableEq

/-- The empty session password (`emptyPassword`, 16 zero bytes). -/
def emptyPassword : List Nat := List.replicate 16 0

/-- The session-relevant mutable fields of `Conn` touched by the handshake. -/
structure ConnState where
  sessionId : Int
  passwd : List Nat
  timeout : Int
  xid : Int
  state : State
  deriving DecidableEq

/-- The decoded connect response `{TimeOut, SessionId, Passwd}`. -/
structure ConnectResponse where
  timeOut : Int
  sessionId : Int
  passwd : List Nat
  deriving DecidableEq

/-- Session policy applied by `authenticate` (conn.go lines 341-356) once the
connect response has been decoded: rejected session (sessionId 0) zeroes the
session identity, resets the password, sets state Expired and reports
ErrSessionExpired; otherwise the xid counter is reset when the returned
sessionId differs from the prior one, and the negotiated timeout, sessionId
and passwd are adopted with state HasSession. -/
def handleConnectResponse (c : ConnState) (r : ConnectResponse) :
    ConnState × Option ZkError :=
  if r.sessionId = 0 then
    ({ c with sessionId := 0, passwd := emptyPassword, state := State.expired },
      some ZkError.errSessionExpired)
  else
    ({ c with
        xid := if c.sessionId ≠ r.sessionId then 0 else c.xid,
        timeout := r.timeOut,
        sessionId := r.sessionId,
        passwd := r.passwd,
        state := State.hasSession }, none)

/-- Wrapping of an integer into the signed 32-bit range, as performed by Go's
int32 arithmetic. -/
def wrap32 (n : Int) : Int := (n + 2 ^ 31) % 2 ^ 32 - 2 ^ 31

/-- nextXid (conn.go lines 526-528): `atomic.AddInt32(&c.xid, 1)` increments
the wrapping int32 counter and returns the incremented value. -/
def nextXid (xid : Int) : Int := wrap32 (xid + 1)

/-- Value of the xid counter after `n` assignments starting from the reset
value 0; the n-th assigned xid is `xidAfter n`. -/
def xidAfter (n : Nat) : Int := nextXid^[n] 0

/-- lastZxid update performed by recvLoop (conn.go lines 497-499) on a
response header: `if res.Zxid > 0 { c.lastZxid = res.Zxid }`. -/
def updateLastZxid (lastZxid zxid : Int) : Int :=
  if 0 < zxid then zxid else lastZxid

lemma wrap32_eq_self (n : Int) (h1 : -(2 ^ 31) ≤ n) (h2 : n < 2 ^ 31) :
    wrap32 n = n := by
  unfold wrap32
  rw [Int.emod_eq_of_lt (by omega) (by omega)]
  omega

lemma xidAfter_succ (n : Nat) : xidAfter (n + 1) = nextXid (xidAfter n) := by
  simp [xidAfter, Function.iterate_succ_apply']

lemma xidAfter_eq (n : Nat) (h : n < 2 ^ 31) : xidAfter n = n := by
  induction n with
  | zero => simp [xidAfter]
  | succ k ih =>
    have hk : k < 2 ^ 31 := by omega
    rw [xidAfter_succ, ih hk]
    unfold nextXid
    rw [show ((k : Int) + 1) = ((k + 1 : Nat) : Int) by push_cast; ring]
    rw [wrap32_eq_self]
    · omega
    · have : (k + 1 : Nat) < 2 ^ 31 := h
      exact_mod_cast this

lemma xidAfter_overflow : xidAfter (2 ^ 31) = -(2 ^ 31) := by
  have h : xidAfter (2 ^ 31 - 1) = ((2 ^ 31 - 1 : Nat) : Int) :=
    xidAfter_eq (2 ^ 31 - 1) (by norm_num)
  have hs : (2 ^ 31 : Nat) = (2 ^ 31 - 1) + 1 := by norm_num
  rw [hs, xidAfter_succ, h]
  unfold nextXid wrap32
  norm_num

/-! ### Watch registry -/

/-- The per-path watcher record (struct `watchers`): three parallel sequences
of one-shot event sinks. -/
structure Watchers where
  dataWatchers : List Sink
  existWatchers : List Sink
  childWatchers : List Sink
  deriving DecidableEq

/-- Total number of registered sinks of a `Watchers` record, in the order the
emptiness test in recvLoop sums them (child + data + exist). -/
def Watchers.size (w : Watchers) : Nat :=
  w.childWatchers.length + w.dataWatchers.length + w.existWatchers.length

/-- All sinks of a record in the order invalidateWatches walks them
(data, child, exist). -/
def Watchers.allSinks (w : Watchers) : List Sink :=
  w.dataWatchers ++ w.childWatchers ++ w.existWatchers

/-- The watch registry `c.watchers : map[string]*watchers`, modelled as an
association list from path to watcher record. -/
abbrev Registry := List (String × Watchers)

/-- Map lookup `c.watchers[path]`. -/
def lookupW : Registry → String → Option Watchers
  | [], _ => none
  | (q, w) :: rest, p => if q = p then some w else lookupW rest p

/-- Map deletion `delete(c.watchers, path)`. -/
def removeW : Registry → String → Registry
  | [], _ => []
  | (q, w) :: rest, p =>
    if q = p then removeW rest p else (q, w) :: removeW rest p

/-- Map update `c.watchers[path] = w` for a key already present. -/
def setW : Registry → String → Watchers → Registry
  | [], _, _ => []
  | (q, w) :: rest, p, w' =>
    if q = p then (p, w') :: setW rest p w' else (q, w) :: setW rest p w'

/-- Dispatch of a server-pushed watch event to one path's watcher record
(the `switch res.Type` in recvLoop, conn.go lines 466-486): returns the sinks
fired, in firing order, and the record with the fired sequences cleared. -/
def dispatchWatch (t : EventType) (w : Watchers) : List Sink × Watchers :=
  match t with
  | EventType.nodeCreated =>
    (w.existWatchers, { w with existWatchers := [] })
  | EventType.nodeDeleted =>
    (w.existWatchers ++ w.dataWatchers,
      { w with existWatchers := [], dataWatchers := [] })
  | EventType.nodeDataChanged =>
    (w.existWatchers ++ w.dataWatchers,
      { w with existWatchers := [], dataWatchers := [] })
  | EventType.nodeChildrenChanged =>
    (w.childWatchers, { w with childWatchers := [] })
  | _ => ([], w)

/-- Registry-level processing of a watch event for path `p` (recvLoop,
conn.go lines 464-491): when the path is registered, fire and clear per
`dispatchWatch`, then delete the path entry when all three sequences became
empty. -/
def processWatchEvent (reg : Registry) (p : String) (t : EventType) :
    List Sink × Registry :=
  match lookupW reg p with
  | none => ([], reg)
  | some w =>
    let dw := dispatchWatch t w
    if dw.2.size = 0 then (dw.1, removeW reg p) else (dw.1, setW reg p dw.2)

lemma lookupW_removeW (reg : Registry) (p : String) :
    lookupW (removeW reg p) p = none := by
  induction reg with
  | nil => rfl
  | cons e rest ih =>
    obtain ⟨q, w⟩ := e
    by_cases h : q = p
    · simpa [removeW, h] using ih
    · simpa [removeW, lookupW, h] using ih

lemma lookupW_setW (reg : Registry) (p : String) (w w' : Watchers)
    (hl : lookupW reg p = some w) : lookupW (setW reg p w') p = some w' := by
  induction reg with
  | nil => simp [lookupW] at hl
  | cons e rest ih =>
    obtain ⟨q, w0⟩ := e
    by_cases h : q = p
    · simp [setW, lookupW, h]
    · simp [lookupW, h] at hl
      simpa [setW, lookupW, h] using ih hl

/-- C3: for a server-pushed watch event on a registered path, the receive
pipeline fires and clears exactly the sequences the protocol specifies
(NodeCreated: only existWatchers; NodeDeleted and NodeDataChanged: exactly
existWatchers then dataWatchers; NodeChildrenChanged: only childWatchers),
and after dispatch the path entry is removed if and only if all three
sequences are empty. -/
theorem c3_watch_dispatch (reg : Registry) (p : String) (t : EventType)
    (w : Watchers) (hl : lookupW reg p = some w) :
    (processWatchEvent reg p t).1 = (dispatchWatch t w).1 ∧
    dispatchWatch EventType.nodeCreated w =
      (w.existWatchers, { w with existWatchers := [] }) ∧
    dispatchWatch EventType.nodeDeleted w =
      (w.existWatchers ++ w.dataWatchers,
        { w with existWatchers := [], dataWatchers := [] }) ∧
    dispatchWatch EventType.nodeDataChanged w =
      (w.existWatchers ++ w.dataWatchers,
        { w with existWatchers := [], dataWatchers := [] }) ∧
    dispatchWatch EventType.nodeChildrenChanged w =
      (w.childWatchers, { w with childWatchers := [] }) ∧
    (lookupW (processWatchEvent reg p t).2 p = none ↔
      (dispatchWatch t w).2.size = 0) := by
  refine ⟨?_, rfl, rfl, rfl, rfl, ?_⟩
  · unfold processWatchEvent
    rw [hl]
    by_cases h : (dispatchWatch t w).2.size = 0 <;> simp [h]
  · unfold processWatchEvent
    rw [hl]
    by_cases h : (dispatchWatch t w).2.size = 0
    · simp [h, lookupW_removeW]
    · simp [h, lookupW_setW reg p w (dispatchWatch t w).2 hl]

/-- Concrete registry used to witness the watch-dispatch theorem. -/
def regC3 : Registry :=
  [("/a", { dataWatchers := [4], existWatchers := [1, 2], childWatchers := [] })]

/-- Record registered at "/a" in `regC3`. -/
def wC3 : Watchers :=
  { dataWatchers := [4], existWatchers := [1, 2], childWatchers := [] }

theorem c3_watch_dispatch_witness :
    (processWatchEvent regC3 "/a" EventType.nodeDataChanged).1 =
      (dispatchWatch EventType.nodeDataChanged wC3).1 ∧
    dispatchWatch EventType.nodeCreated wC3 =
      (wC3.existWatchers, { wC3 with existWatchers := [] }) ∧
    dispatchWatch EventType.nodeDeleted wC3 =
      (wC3.existWatchers ++ wC3.dataWatchers,
        { wC3 with existWatchers := [], dataWatchers := [] }) ∧
    dispatchWatch EventType.nodeDataChanged wC3 =
      (wC3.existWatchers ++ wC3.dataWatchers,
        { wC3 with existWatchers := [], dataWatchers := [] }) ∧
    dispatchWatch EventType.nodeChildrenChanged wC3 =
      (wC3.childWatchers, { wC3 with childWatchers := [] }) ∧
    (lookupW (processWatchEvent regC3 "/a" EventType.nodeDataChanged).2 "/a" =
        none ↔
      (dispatchWatch EventType.nodeDataChanged wC3).2.size = 0) :=
  c3_watch_dispatch regC3 "/a" EventType.nodeDataChanged wC3 (by decide)

/-! ### Set-watches on reconnect -/

/-- The setWatchesRequest record; the first field keeps the source's
spelling of its `RealtiveZxid` field. -/
structure SetWatchesRequest where
  realtiveZxid : Int
  dataWatches : List String
  existWatches : List String
  childWatches : List String
  deriving DecidableEq

/-- Paths of the registry whose sequence selected by `sel` is non-empty, in
registry order (the accumulation loop of sendSetWatches, conn.go lines
266-279, specialised to one of the three lists it builds). -/
def swList (sel : Watchers → List Sink) : Registry → List String
  | [] => []
  | (p, w) :: rest =>
    (if sel w ≠ [] then [p] else []) ++ swList sel rest

/-- The `pathLen` accumulator of sendSetWatches: total byte count of the
included paths, counting a path once per list that includes it. -/
def swPathLen : Registry → Nat
  | [] => 0
  | (p, w) :: rest =>
    (if w.dataWatchers ≠ [] then p.length else 0) +
      ((if w.existWatchers ≠ [] then p.length else 0) +
        ((if w.childWatchers ≠ [] then p.length else 0) + swPathLen rest))

/-- sendSetWatches (conn.go lines 251-291): produce nothing when the registry
is empty or the accumulated path byte count is zero, otherwise produce one
request carrying lastZxid and the three partitioned path lists. -/
def sendSetWatches (reg : Registry) (lastZxid : Int) :
    Option SetWatchesRequest :=
  if reg = [] then none
  else if swPathLen reg = 0 then none
  else
    some
      { realtiveZxid := lastZxid,
        dataWatches := swList (fun w => w.dataWatchers) reg,
        existWatches := swList (fun w => w.existWatchers) reg,
        childWatches := swList (fun w => w.childWatchers) reg }

lemma swList_mem_keys (sel : Watchers → List Sink) (reg : Registry)
    (p : String) (h : p ∈ swList sel reg) : p ∈ reg.map Prod.fst := by
  induction reg with
  | nil => simp [swList] at h
  | cons e rest ih =>
    obtain ⟨q, w⟩ := e
    simp only [swList, List.mem_append] at h
    rcases h with h | h
    · by_cases hq : sel w ≠ [] <;> simp [hq] at h
      simp [h]
    · simp [ih h]

lemma mem_swList_iff (sel : Watchers → List Sink) (reg : Registry)
    (p : String) (w : Watchers) (hnd : (reg.map Prod.fst).Nodup)
    (hl : lookupW reg p = some w) : p ∈ swList sel reg ↔ sel w ≠ [] := by
  induction reg with
  | nil => simp [lookupW] at hl
  | cons e rest ih =>
    obtain ⟨q, w0⟩ := e
    simp only [List.map_cons, List.nodup_cons] at hnd
    by_cases h : q = p
    · subst h
      have hl' : w0 = w := by simpa [lookupW] using hl
      subst hl'
      have hnot : q ∉ swList sel rest := fun hmem =>
        hnd.1 (swList_mem_keys sel rest q hmem)
      by_cases hw : sel w0 ≠ [] <;> simp [swList, hw, hnot]
    · simp only [lookupW, if_neg h] at hl
      have := ih hnd.2 hl
      by_cases hw : sel w0 ≠ [] <;>
        simp [swList, hw, this, Ne.symm h]

/-- C6: sendSetWatches produces no request exactly when the registry is empty
or the total byte count of included paths is zero; a produced request carries
lastZxid and, for every registered path, includes it in the data, exist and
child lists exactly for the kinds whose subscriber sequence is non-empty. -/
theorem c6_set_watches (reg : Registry) (z : Int) :
    (sendSetWatches reg z = none ↔ (reg = [] ∨ swPathLen reg = 0)) ∧
    (∀ r, sendSetWatches reg z = some r →
      r.realtiveZxid = z ∧
      (∀ p w, (reg.map Prod.fst).Nodup → lookupW reg p = some w →
        ((p ∈ r.dataWatches ↔ w.dataWatchers ≠ []) ∧
          (p ∈ r.existWatches ↔ w.existWatchers ≠ []) ∧
          (p ∈ r.childWatches ↔ w.childWatchers ≠ [])))) := by
  constructor
  · unfold sendSetWatches
    by_cases h1 : reg = [] <;> by_cases h2 : swPathLen reg = 0 <;>
      simp [h1, h2]
  · intro r hr
    unfold sendSetWatches at hr
    by_cases h1 : reg = [] <;> by_cases h2 : swPathLen reg = 0 <;>
      simp [h1, h2] at hr
    subst hr
    refine ⟨rfl, ?_⟩
    intro p w hnd hl
    exact ⟨mem_swList_iff _ reg p w hnd hl, mem_swList_iff _ reg p w hnd hl,
      mem_swList_iff _ reg p w hnd hl⟩

/-- Concrete registry used to witness the set-watches theorem: one path with
a data watcher only, one path with an exist and a child watcher. -/
def regC6 : Registry :=
  [("/a", { dataWatchers := [1], existWatchers := [], childWatchers := [] }),
    ("/b", { dataWatchers := [], existWatchers := [2], childWatchers := [3] })]

/-- Record registered at "/b" in `regC6`. -/
def wC6b : Watchers :=
  { dataWatchers := [], existWatchers := [2], childWatchers := [3] }

/-- The request sendSetWatches produces for `regC6` at lastZxid 9. -/
def rC6 : SetWatchesRequest :=
  { realtiveZxid := 9, dataWatches := ["/a"], existWatches := ["/b"],
    childWatches := ["/b"] }

theorem c6_set_watches_witness :
    rC6.realtiveZxid = 9 ∧
    (("/b" ∈ rC6.dataWatches ↔ wC6b.dataWatchers ≠ []) ∧
      ("/b" ∈ rC6.existWatches ↔ wC6b.existWatchers ≠ []) ∧
      ("/b" ∈ rC6.childWatches ↔ wC6b.childWatchers ≠ [])) :=
  ⟨((c6_set_watches regC6 9).2 rC6 (by decide)).1,
    ((c6_set_watches regC6 9).2 rC6 (by decide)).2 "/b" wC6b (by decide)
      (by decide)⟩

/-! ### Watch invalidation -/

/-- The event pushed to every subscriber by invalidateWatches (conn.go line
236): EventNotWatching with the hard-coded StateDisconnected, the watched
path, and the triggering error. -/
def notWatchingEvent (p : String) (err : ZkError) : Event :=
  { type := EventType.notWatching, state := State.disconnected, path := p,
    err := some err }

/-- invalidateWatches (conn.go lines 230-249): deliver one EventNotWatching
to every subscriber of every path (walking data, then child, then exist
sequences) and clear the registry.  Returns the deliveries, in order, and
the registry afterwards. -/
def invalidateWatches : Registry → ZkError → List (Sink × Event) × Registry
  | [], _ => ([], [])
  | (p, w) :: rest, err =>
    ((w.allSinks.map fun s => (s, notWatchingEvent p err)) ++
      (invalidateWatches rest err).1, [])

/-- Number of deliveries made to sink `s` in a delivery list. -/
def delivCount (s : Sink) (ds : List (Sink × Event)) : Nat :=
  (ds.filter fun d => d.1 == s).length

/-- Number of times sink `s` is registered across the registry. -/
def sinkCount (s : Sink) : Registry → Nat
  | [] => 0
  | (_, w) :: rest => w.allSinks.count s + sinkCount s rest

lemma delivCount_append (s : Sink) (a b : List (Sink × Event)) :
    delivCount s (a ++ b) = delivCount s a + delivCount s b := by
  simp [delivCount, List.filter_append]

lemma delivCount_map (s : Sink) (l : List Sink) (ev : Event) :
    delivCount s (l.map fun x => (x, ev)) = l.count s := by
  induction l with
  | nil => rfl
  | cons a t ih =>
    by_cases h : a = s <;>
      simp [delivCount, List.filter_cons, List.count_cons, h, ← ih,
        delivCount]

/-- C8: invalidateWatches empties the registry; every sink receives as many
deliveries as it has registrations (so a sink registered once receives
exactly one); and every delivery carries EventNotWatching with state
Disconnected, the triggering error, and the path the receiving sink was
registered under. -/
theorem c8_invalidate_watches (reg : Registry) (err : ZkError) :
    (invalidateWatches reg err).2 = [] ∧
    (∀ s, delivCount s (invalidateWatches reg err).1 = sinkCount s reg) ∧
    (∀ s, sinkCount s reg = 1 →
      delivCount s (invalidateWatches reg err).1 = 1) ∧
    (∀ d, d ∈ (invalidateWatches reg err).1 →
      d.2.type = EventType.notWatching ∧ d.2.state = State.disconnected ∧
        d.2.err = some err ∧
        ∃ w, (d.2.path, w) ∈ reg ∧ d.1 ∈ w.allSinks) := by
  induction reg with
  | nil =>
    refine ⟨rfl, fun s => rfl, fun s h => by simp [sinkCount] at h, ?_⟩
    intro d hd
    simp [invalidateWatches] at hd
  | cons e rest ih =>
    obtain ⟨p, w⟩ := e
    obtain ⟨-, ihc, -, ihm⟩ := ih
    have hcount : ∀ s,
        delivCount s (invalidateWatches ((p, w) :: rest) err).1 =
          sinkCount s ((p, w) :: rest) := by
      intro s
      show delivCount s
          ((w.allSinks.map fun x => (x, notWatchingEvent p err)) ++
            (invalidateWatches rest err).1) = _
      rw [delivCount_append, delivCount_map, ihc s]
      rfl
    refine ⟨rfl, hcount, fun s h => by rw [hcount s]; exact h, ?_⟩
    intro d hd
    have hd' :
        d ∈ (w.allSinks.map fun x => (x, notWatchingEvent p err)) ++
          (invalidateWatches rest err).1 := hd
    rcases List.mem_append.mp hd' with hd | hd
    · obtain ⟨x, hx, hxd⟩ := List.mem_map.mp hd
      subst hxd
      exact ⟨rfl, rfl, rfl, w, List.mem_cons_self _ _, hx⟩
    · obtain ⟨h1, h2, h3, w', hw', hs⟩ := ihm d hd
      exact ⟨h1, h2, h3, w', List.mem_cons_of_mem _ hw', hs⟩

/-- Concrete registry used to witness the invalidation theorem. -/
def regC8 : Registry :=
  [("/a", { dataWatchers := [5], existWatchers := [], childWatchers := [] }),
    ("/b", { dataWatchers := [], existWatchers := [6], childWatchers := [] })]

theorem c8_invalidate_watches_witness :
    (invalidateWatches regC8 ZkError.errSessionExpired).2 = [] ∧
    delivCount 5 (invalidateWatches regC8 ZkError.errSessionExpired).1 = 1 ∧
    ((5, notWatchingEvent "/a" ZkError.errSessionExpired).2.type =
        EventType.notWatching ∧
      (5, notWatchingEvent "/a" ZkError.errSessionExpired).2.state =
        State.disconnected ∧
      (5, notWatchingEvent "/a" ZkError.errSessionExpired).2.err =
        some ZkError.errSessionExpired ∧
      ∃ w, ((5, notWatchingEvent "/a" ZkError.errSessionExpired).2.path, w) ∈
          regC8 ∧
        (5, notWatchingEvent "/a" ZkError.errSessionExpired).1 ∈
          w.allSinks) :=
  ⟨(c8_invalidate_watches regC8 ZkError.errSessionExpired).1,
    (c8_invalidate_watches regC8 ZkError.errSessionExpired).2.2.1 5
      (by decide),
    (c8_invalidate_watches regC8 ZkError.errSessionExpired).2.2.2
      (5, notWatchingEvent "/a" ZkError.errSessionExpired) (by decide)⟩

/-! ### lastZxid (C2) -/

/-- C2 counterexample: recvLoop assigns rather than maximises, so a response
with zxid 3 arriving while lastZxid is 5 leaves lastZxid at 3, below its
prior value. -/
theorem c2_counterexample :
    updateLastZxid 5 3 = 3 ∧ ¬ 5 ≤ updateLastZxid 5 3 := by decide

/-- C2 (amended): for a response with header zxid > 0 the receive pipeline
assigns lastZxid := zxid, so the new value equals (hence is at least) the
response's zxid, and is at least the prior value exactly when the prior
value did not exceed the response's zxid; responses with zxid ≤ 0 leave
lastZxid unchanged. -/
theorem c2_lastZxid_assign (prior z : Int) :
    (0 < z →
      updateLastZxid prior z = z ∧ z ≤ updateLastZxid prior z ∧
        (prior ≤ z → prior ≤ updateLastZxid prior z)) ∧
    (¬ 0 < z → updateLastZxid prior z = prior) := by
  unfold updateLastZxid
  by_cases h : 0 < z <;> simp [h]

theorem c2_lastZxid_assign_witness :
    updateLastZxid 1 5 = 5 ∧ 5 ≤ updateLastZxid 1 5 ∧
      (1 ≤ updateLastZxid 1 5) ∧ updateLastZxid 7 0 = 7 :=
  ⟨((c2_lastZxid_assign 1 5).1 (by decide)).1,
    ((c2_lastZxid_assign 1 5).1 (by decide)).2.1,
    ((c2_lastZxid_assign 1 5).1 (by decide)).2.2 (by decide),
    (c2_lastZxid_assign 7 0).2 (by decide)⟩

/-! ### Handshake expiry path (C4) -/

/-- C4: when the connect response carries sessionId 0, authenticate zeroes
the connection's sessionId, resets passwd to the empty credential, sets the
state to Expired and returns ErrSessionExpired, leaving timeout and xid
untouched. -/
theorem c4_handshake_expired (c : ConnState) (r : ConnectResponse)
    (h : r.sessionId = 0) :
    (handleConnectResponse c r).1.sessionId = 0 ∧
    (handleConnectResponse c r).1.passwd = emptyPassword ∧
    (handleConnectResponse c r).1.state = State.expired ∧
    (handleConnectResponse c r).2 = some ZkError.errSessionExpired ∧
    (handleConnectResponse c r).1.timeout = c.timeout ∧
    (handleConnectResponse c r).1.xid = c.xid := by
  simp [handleConnectResponse, h]

/-- Concrete connection state used to witness the handshake theorems. -/
def cW : ConnState :=
  { sessionId := 5, passwd := [9, 9], timeout := 30000, xid := 7,
    state := State.connected }

/-- A connect response rejecting the session. -/
def rExpired : ConnectResponse :=
  { timeOut := 4000, sessionId := 0, passwd := [1] }

theorem c4_handshake_expired_witness :
    (handleConnectResponse cW rExpired).1.sessionId = 0 ∧
    (handleConnectResponse cW rExpired).1.passwd = emptyPassword ∧
    (handleConnectResponse cW rExpired).1.state = State.expired ∧
    (handleConnectResponse cW rExpired).2 = some ZkError.errSessionExpired ∧
    (handleConnectResponse cW rExpired).1.timeout = cW.timeout ∧
    (handleConnectResponse cW rExpired).1.xid = cW.xid :=
  c4_handshake_expired cW rExpired (by decide)

/-! ### Xid discipline (C5) -/

/-- C5 counterexample.  First part: the expiry path of the handshake observes
a returned sessionId (0) different from the prior one (5) yet does not reset
the xid counter, refuting "reset exactly when the returned sessionId
differs".  Second part: the counter is a wrapping int32, so the 2^31-th
assigned xid is below the (2^31 - 1)-th, refuting unqualified strict
increase within one session. -/
theorem c5_counterexample :
    (rExpired.sessionId ≠ cW.sessionId ∧
      (handleConnectResponse cW rExpired).1.xid = 7 ∧
      (handleConnectResponse cW rExpired).1.xid ≠ 0) ∧
    xidAfter (2 ^ 31) < xidAfter (2 ^ 31 - 1) := by
  refine ⟨by decide, ?_⟩
  rw [xidAfter_overflow, xidAfter_eq (2 ^ 31 - 1) (by norm_num)]
  norm_num

/-- C5 (amended): starting from a reset counter, the n-th assigned xid is n
while fewer than 2^31 xids have been assigned, so assigned xids begin at 1
and are strictly increasing below the int32 wrap; the counter is reset to 0
exactly when a handshake whose returned sessionId is nonzero observes it
differ from the prior one, and is left unchanged both when the same nonzero
sessionId returns and on the expiry path (returned sessionId 0). -/
theorem c5_xid_discipline :
    (∀ n : Nat, n < 2 ^ 31 → xidAfter n = n) ∧
    (∀ m n : Nat, m < n → n < 2 ^ 31 → xidAfter m < xidAfter n) ∧
    xidAfter 1 = 1 ∧
    (∀ c r, r.sessionId ≠ 0 → r.sessionId ≠ c.sessionId →
      (handleConnectResponse c r).1.xid = 0) ∧
    (∀ c r, r.sessionId ≠ 0 → r.sessionId = c.sessionId →
      (handleConnectResponse c r).1.xid = c.xid) ∧
    (∀ c r, r.sessionId = 0 → (handleConnectResponse c r).1.xid = c.xid) := by
  have hval : ∀ n : Nat, n < 2 ^ 31 → xidAfter n = n := xidAfter_eq
  refine ⟨hval, ?_, by decide, ?_, ?_, ?_⟩
  · intro m n hmn hn
    rw [hval m (by omega), hval n hn]
    exact_mod_cast hmn
  · intro c r h0 hne
    have hne' : c.sessionId ≠ r.sessionId := fun h => hne h.symm
    simp [handleConnectResponse, h0, hne']
  · intro c r h0 heq
    have h0' : c.sessionId ≠ 0 := heq ▸ h0
    simp [handleConnectResponse, h0', heq]
  · intro c r h0
    simp [handleConnectResponse, h0]

/-- A connect response assigning a fresh session. -/
def rFresh : ConnectResponse :=
  { timeOut := 4000, sessionId := 8, passwd := [2] }

/-- A connect response returning the prior session of `cW`. -/
def rSame : ConnectResponse :=
  { timeOut := 4000, sessionId := 5, passwd := [2] }

theorem c5_xid_discipline_witness :
    xidAfter 3 = 3 ∧ xidAfter 2 < xidAfter 3 ∧ xidAfter 1 = 1 ∧
    (handleConnectResponse cW rFresh).1.xid = 0 ∧
    (handleConnectResponse cW rSame).1.xid = cW.xid ∧
    (handleConnectResponse cW rExpired).1.xid = cW.xid :=
  ⟨c5_xid_discipline.1 3 (by norm_num),
    c5_xid_discipline.2.1 2 3 (by norm_num) (by norm_num),
    c5_xid_discipline.2.2.1,
    c5_xid_discipline.2.2.2.1 cW rFresh (by decide) (by decide),
    c5_xid_discipline.2.2.2.2.1 cW rSame (by decide) (by decide),
    c5_xid_discipline.2.2.2.2.2 cW rExpired (by decide)⟩

/-! ### Exists / ExistsW error rewriting (C9) -/

/-- Post-processing of the request error in Exists (conn.go lines 666-675):
the returned boolean defaults to true; only ErrNoNode flips it to false and
is rewritten to nil. -/
def existsOutcome (err : Option ZkError) : Bool × Option ZkError :=
  if err = some ZkError.errNoNode then (false, none) else (true, err)

/-- Watcher kinds (watcherType). -/
inductive WatcherType where
  | data
  | exist
  | child
  deriving DecidableEq

/-- Post-processing in ExistsW (conn.go lines 677-694): same boolean/error
rewriting as Exists, plus the kind of watcher registered when the resulting
error is nil (data watcher on an existing node, exist watcher on a missing
one). -/
def existsWOutcome (err : Option ZkError) :
    Bool × Option ZkError × Option WatcherType :=
  let ex := if err = some ZkError.errNoNode then false else true
  let err2 := if err = some ZkError.errNoNode then none else err
  (ex, err2,
    if err2 = none then
      (if ex then some WatcherType.data else some WatcherType.exist)
    else none)

/-- C9: when the underlying exists request fails with any error other than
NoNode, Exists and ExistsW return true together with that error; the boolean
is false exactly in the NoNode case, where the error is rewritten to nil. -/
theorem c9_exists_outcome (e : Option ZkError) :
    (e ≠ some ZkError.errNoNode →
      existsOutcome e = (true, e) ∧ (existsWOutcome e).1 = true ∧
        (existsWOutcome e).2.1 = e) ∧
    existsOutcome (some ZkError.errNoNode) = (false, none) ∧
    ((existsOutcome e).1 = false ↔ e = some ZkError.errNoNode) ∧
    ((existsWOutcome e).1 = false ↔ e = some ZkError.errNoNode) := by
  by_cases h : e = some ZkError.errNoNode <;>
    simp [existsOutcome, existsWOutcome, h]

theorem c9_exists_outcome_witness :
    existsOutcome (some ZkError.errConnectionClosed) =
        (true, some ZkError.errConnectionClosed) ∧
      (existsWOutcome (some ZkError.errConnectionClosed)).1 = true ∧
      (existsWOutcome (some ZkError.errConnectionClosed)).2.1 =
        some ZkError.errConnectionClosed :=
  (c9_exists_outcome (some ZkError.errConnectionClosed)).1 (by decide)

/-! ### Send pipeline delivery discipline (C1) -/

/-- Environment of one sendLoop iteration handling a dequeued request:
results of the two encodePacket calls, the state of closeChan at the
pending-table critical section, and the socket write result. -/
structure SendEnv where
  encodeHeaderErr : Option ZkError
  encodeBodyErr : Option ZkError
  closing : Bool
  writeErr : Option ZkError
  deriving DecidableEq

/-- One sendLoop iteration for a dequeued request (conn.go lines 366-399),
over the pending table modelled as an xid-to-sink list.  Returns the
deliveries made to the request's sink, the pending table afterwards, and
whether the loop exits.  Note the write-failure branch delivers the raw
write error and leaves the request in the table. -/
def sendLoopReq (tbl : List (Int × Sink)) (xid : Int) (s : Sink)
    (env : SendEnv) :
    List (Sink × Option ZkError) × List (Int × Sink) × Bool :=
  match env.encodeHeaderErr with
  | some e => ([(s, some e)], tbl, false)
  | none =>
    match env.encodeBodyErr with
    | some e => ([(s, some e)], tbl, false)
    | none =>
      if env.closing then ([(s, some ZkError.errConnectionClosed)], tbl, true)
      else
        match env.writeErr with
        | some e => ([(s, some e)], tbl ++ [(xid, s)], true)
        | none => ([], tbl ++ [(xid, s)], false)

/-- flushRequests (conn.go lines 220-228): complete every pending request
with the given error and empty the table. -/
def flushRequests (tbl : List (Int × Sink)) (err : ZkError) :
    List (Sink × Option ZkError) × List (Int × Sink) :=
  (tbl.map fun e => (e.2, some err), [])

/-- Whether a delivered value belongs to the outcome set the specification
permits on a completion sink: a decoded response (nil error), a translated
protocol error, ErrConnectionClosed, or ErrSessionExpired. -/
def allowedDelivery : Option ZkError → Bool
  | none => true
  | some (ZkError.protoError _) => true
  | some ZkError.errConnectionClosed => true
  | some ZkError.errSessionExpired => true
  | some _ => false

/-- Send environment in which the socket write fails while closeChan is
still open. -/
def envWriteFail : SendEnv :=
  { encodeHeaderErr := none, encodeBodyErr := none, closing := false,
    writeErr := some (ZkError.ioError 7) }

/-- C1 (code bug): when the socket write of a request fails, sendLoop
delivers the raw write error to the request's sink but leaves the request in
the pending table, so the session loop's flushRequests delivers
ErrConnectionClosed to the same sink: the sink receives two deliveries, and
the first lies outside the permitted outcome set. -/
theorem c1_write_failure_double_delivery :
    (sendLoopReq [] 1 0 envWriteFail).1 ++
        (flushRequests (sendLoopReq [] 1 0 envWriteFail).2.1
          ZkError.errConnectionClosed).1 =
      [(0, some (ZkError.ioError 7)), (0, some ZkError.errConnectionClosed)] ∧
    ((sendLoopReq [] 1 0 envWriteFail).1 ++
        (flushRequests (sendLoopReq [] 1 0 envWriteFail).2.1
          ZkError.errConnectionClosed).1).length = 2 ∧
    allowedDelivery (some (ZkError.ioError 7)) = false := by
  decide

/-! ### Protected ephemeral-sequential create (C7, C10) -/

/-- The protectedPrefix marker constant "_c_". -/
def protectedMarker : String := "_c_"

/-- Lowercase hex digit of a value below 16. -/
def hexDigit (n : Nat) : Char :=
  if n < 10 then Char.ofNat (48 + n) else Char.ofNat (87 + n)

/-- Two lowercase hex digits of one byte. -/
def hexByte (b : Nat) : List Char := [hexDigit (b / 16), hexDigit (b % 16)]

/-- The guid string `fmt.Sprintf("%x", guid)` of a byte sequence: two hex
digits per byte, so 32 characters for the 16 random bytes. -/
def guidHex (g : List Nat) : String :=
  String.mk (g.foldr (fun b acc => hexByte b ++ acc) [])

/-- Character-list split at a separator, modelling strings.Split. -/
def splitOnChar (c : Char) : List Char → List (List Char)
  | [] => [[]]
  | a :: rest =>
    match splitOnChar c rest with
    | [] => [[]]
    | h :: t => if a == c then [] :: h :: t else (a :: h) :: t

/-- strings.Split(s, "/"). -/
def splitSlash (s : String) : List String :=
  (splitOnChar '/' s.toList).map String.mk

/-- strings.Join(l, "/"). -/
def joinSlash : List String → String
  | [] => ""
  | [p] => p
  | p :: rest => p ++ "/" ++ joinSlash rest

/-- Whether the character list `s` begins with the character list `t`
(strings.HasPrefix). -/
def listStarts : List Char → List Char → Bool
  | _, [] => true
  | [], _ :: _ => false
  | a :: s, b :: t => a == b && listStarts s t

/-- First `n` characters of a string. -/
def takeChars (n : Nat) (s : String) : String := String.mk (s.toList.take n)

/-- String without its first `n` characters. -/
def dropChars (n : Nat) (s : String) : String := String.mk (s.toList.drop n)

/-- Path rewriting at the head of CreateProtectedEphemeralSequential
(conn.go lines 628-631): the final component of the requested path is
replaced by "_c_" ++ guid ++ "-" ++ component; returns (rootPath,
protectedPath). -/
def protectPaths (path guidStr : String) : String × String :=
  let parts := splitSlash path
  let parts2 := parts.dropLast ++
    [protectedMarker ++ guidStr ++ "-" ++ parts.getLastD ""]
  (joinSlash parts2.dropLast, joinSlash parts2)

/-- The child scan of the connection-closed branch (conn.go lines 644-651).
For each child, the final path component is tested for the "_c_" marker and,
when present, the Go code takes the byte slice pth[3:35] unconditionally to
compare against the guid; the slice is out of bounds when the component is
shorter than 35, which is a runtime panic, modelled as `Except.error ()`.
On a guid match the child (to be prefixed with rootPath ++ "/") is
returned. -/
def scanChildren (guidStr : String) : List String → Except Unit (Option String)
  | [] => Except.ok none
  | p :: rest =>
    let pth := (splitSlash p).getLastD ""
    if listStarts pth.toList protectedMarker.toList then
      if pth.length < 35 then Except.error ()
      else if takeChars 32 (dropChars 3 pth) = guidStr then Except.ok (some p)
      else scanChildren guidStr rest
    else scanChildren guidStr rest

/-- Per-attempt environment for the retry loop of
CreateProtectedEphemeralSequential: the outcome of the create request and,
when it is ErrConnectionClosed, the result of the Children call on the
parent path. -/
inductive AttemptOutcome where
  | ok (path : String)
  | sessionExpired
  | connectionClosed (childrenResult : Except ZkError (List String))
  | otherErr (e : ZkError)

/-- The retry loop of CreateProtectedEphemeralSequential (conn.go lines
634-658), with `fuel` remaining iterations, `i` the attempt index and `last`
the error of the previous attempt.  A panic of the child scan propagates as
`Except.error ()`. -/
def cpesGo (guidStr rootPath : String) (attempt : Nat → AttemptOutcome) :
    Nat → Nat → Option ZkError → Except Unit (String × Option ZkError)
  | 0, _, last => Except.ok ("", last)
  | Nat.succ fuel, i, _ =>
    match attempt i with
    | AttemptOutcome.ok p => Except.ok (p, none)
    | AttemptOutcome.sessionExpired =>
      cpesGo guidStr rootPath attempt fuel (i + 1)
        (some ZkError.errSessionExpired)
    | AttemptOutcome.connectionClosed (Except.error e) =>
      Except.ok ("", some e)
    | AttemptOutcome.connectionClosed (Except.ok children) =>
      match scanChildren guidStr children with
      | Except.error u => Except.error u
      | Except.ok (some p) => Except.ok (rootPath ++ "/" ++ p, none)
      | Except.ok none =>
        cpesGo guidStr rootPath attempt fuel (i + 1)
          (some ZkError.errConnectionClosed)
    | AttemptOutcome.otherErr e => Except.ok ("", some e)

/-- CreateProtectedEphemeralSequential's loop entry: three attempts. -/
def cpesRun (guidStr rootPath : String) (attempt : Nat → AttemptOutcome) :
    Except Unit (String × Option ZkError) :=
  cpesGo guidStr rootPath attempt 3 0 none

/-- Attempt environment for the C7 failing input: every create attempt fails
with ErrConnectionClosed and the parent then lists one child "_c_ab". -/
def attemptC7 : Nat → AttemptOutcome := fun _ =>
  AttemptOutcome.connectionClosed (Except.ok ["_c_ab"])

/-- C7 (code bug): on the connection-closed branch, a children list holding
a basename that begins with "_c_" but is shorter than 35 characters makes
the fixed slice pth[3:35] fault, so the call panics instead of retrying or
returning a result, contrary to the claimed recovery behaviour. -/
theorem c7_scan_fault_aborts_retry :
    cpesRun "0123456789abcdef0123456789abcdef" "/p" attemptC7 =
        Except.error () ∧
      listStarts "_c_ab".toList protectedMarker.toList = true ∧
      "_c_ab".length < 35 :=
  ⟨rfl, rfl, by decide⟩

/-- C10 (code bug): the guid-extraction slice is not always within bounds:
the scan faults on the child "_c_x", whose basename carries the marker but
is only 5 bytes long. -/
theorem c10_scan_out_of_bounds :
    scanChildren "00000000000000000000000000000000" ["_c_x"] =
        Except.error () ∧
      listStarts "_c_x".toList protectedMarker.toList = true ∧
      "_c_x".length < 35 :=
  ⟨rfl, rfl, by decide⟩

end Zk
